import Mathlib

/-!
Shallow embedding of the `replication_tests` package (the CassandraTests
repository): node discovery (`cassandra_utils/discovery.py`), the four test
scenarios (`tests/sql_test.py`, `tests/nosql_test.py`,
`tests/disconnect_reconnect_test.py`, `tests/network_limit_test.py`) and the
orchestrator (`main.py`).

External effects (Cassandra sessions, podman commands, wall-clock sleeps,
`random`) are modelled by explicit environment records whose fields give the
outcome of each effectful step; the control flow of every function is
translated statement by statement from the Python source.  Python exceptions
are modelled with `Except PyErr`; Python strings are modelled as `List Char`
where character-level operations (split / partition / rstrip / int) matter,
and as `String` elsewhere.
-/

/-- The Python exceptions that the embedded code can raise or catch. -/
inductive PyErr where
  /-- `cassandra.cluster.OperationTimedOut` -/
  | opTimedOut : PyErr
  /-- `ValueError` (e.g. from `int()` on a non-numeric string) -/
  | valueError : PyErr
  /-- `ZeroDivisionError` -/
  | zeroDivError : PyErr
  deriving DecidableEq, Repr

/-- Model of Python `str.split(sep)` for a one-character separator: splits on
every occurrence of `c`, keeping empty parts, so that `"a,b"` gives
`["a", "b"]` and `""` gives `[""]`. -/
def pySplit (c : Char) : List Char → List (List Char)
  | [] => [[]]
  | x :: xs =>
    match pySplit c xs with
    | [] => [[]]
    | p :: ps => if x = c then [] :: p :: ps else (x :: p) :: ps

/-- Model of Python `str.partition(sep)` for a one-character separator,
returning the pair (text before the first `c`, text after it).  When `c` does
not occur the whole string is the first component and the second is empty,
exactly as Python's `partition` yields an empty third component then. -/
def partitionAt (c : Char) : List Char → List Char × List Char
  | [] => ([], [])
  | x :: xs =>
    if x = c then ([], xs)
    else
      let p := partitionAt c xs
      (x :: p.1, p.2)

/-- Model of Python `str.rstrip(chars)`: removes the longest trailing run of
characters drawn from `cut`. -/
def pyRstrip (cut : List Char) (s : List Char) : List Char :=
  (s.reverse.dropWhile (fun c => cut.contains c)).reverse

/-- Numeric value of a decimal digit string (most significant digit first). -/
def digitsVal (s : List Char) : Nat :=
  s.foldl (fun a c => a * 10 + (c.toNat - 48)) 0

/-- Model of Python `int(s)` on the strings this code can feed it: a nonempty
run of decimal digits, optionally signed, parses to its value; anything else
raises `ValueError` (modelled as `none`).  Python's surrounding-whitespace and
underscore tolerance never matter for the inputs produced here. -/
def pyInt (s : List Char) : Option Int :=
  if s ≠ [] ∧ s.all Char.isDigit then some (digitsVal s : Int)
  else
    match s with
    | '+' :: rest =>
      if rest ≠ [] ∧ rest.all Char.isDigit then some (digitsVal rest : Int) else none
    | '-' :: rest =>
      if rest ≠ [] ∧ rest.all Char.isDigit then some (-(digitsVal rest : Int)) else none
    | _ => none

/-! ## Node discovery (`cassandra_utils/discovery.py`) -/

/-- One entry of a container's `Ports` list in `podman ps --format json`. -/
structure PortInfo where
  container_port : Nat
  protocol : String
  host_port : Int
  deriving DecidableEq, Repr

/-- One container reported by `podman ps --format json`: its (joined, already
lowercased by the embedding's caller or compared case-insensitively below)
name string and its port list. -/
structure Container where
  cname : String
  ports : List PortInfo
  cid : String
  deriving DecidableEq, Repr

/-- Environment for `discover_nodes`: the value of the `CASSANDRA_NODES`
environment variable (`none` when unset) and the parsed output of
`podman ps --format json` (`podmanOk = false` models a
`CalledProcessError`, which the code turns into an empty container list). -/
structure DiscoveryEnv where
  override : Option (List Char)
  podmanOk : Bool
  containers : List Container

/-- Model of `spec.partition(":")[0] or "localhost"`,
`int(spec.partition(":")[2] or 9042)` for a single comma-separated entry of
the override string.  A non-numeric explicit port raises `ValueError`. -/
def parseSpec (s : List Char) : Except PyErr (String × Int) :=
  let b := (partitionAt ':' s).1
  let a := (partitionAt ':' s).2
  let host := if b = [] then "localhost" else String.mk b
  if a = [] then .ok (host, 9042)
  else
    match pyInt a with
    | some n => .ok (host, n)
    | none => .error .valueError

/-- The list comprehension over `override.split(",")`: entries are parsed left
to right and the first `ValueError` aborts. -/
def parseSpecs : List (List Char) → Except PyErr (List (String × Int))
  | [] => .ok []
  | s :: ss =>
    match parseSpec s, parseSpecs ss with
    | .ok n, .ok ns => .ok (n :: ns)
    | .error e, _ => .error e
    | .ok _, .error e => .error e

/-- Parsing of the whole `CASSANDRA_NODES` override string. -/
def parseOverride (s : List Char) : Except PyErr (List (String × Int)) :=
  parseSpecs (pySplit ',' s)

/-- Model of `"cassandra" in cname.lower()`: substring test on the lowercased name. -/
def nameMatches (cname : String) : Bool :=
  decide ("cassandra".toList <:+: cname.toLower.toList)

/-- The inner `for port_info in container.get("Ports", [])` loop: the first
port entry mapping container port 9042/tcp to a truthy host port wins (an
entry whose `host_port` is `0` is skipped without breaking the loop). -/
def findHostPort (ports : List PortInfo) : Option Int :=
  (ports.find? (fun p =>
    p.container_port = 9042 && p.protocol = "tcp" && p.host_port ≠ 0)).map
    (fun p => p.host_port)

/-- The podman scan of `discover_nodes`: one `("localhost", host_port)` node
per container whose name contains "cassandra" and which publishes 9042/tcp. -/
def podmanNodes (containers : List Container) : List (String × Int) :=
  containers.foldr
    (fun c acc =>
      if nameMatches c.cname then
        match findHostPort c.ports with
        | some hp => ("localhost", hp) :: acc
        | none => acc
      else acc) []

/-- The podman-then-fallback tail of `discover_nodes`, reached when no
(truthy) override is set. -/
def discoverPodman (env : DiscoveryEnv) (fallback_n : Nat) :
    Except PyErr (List (String × Int)) :=
  let containers := if env.podmanOk then env.containers else []
  let nodes := podmanNodes containers
  if nodes ≠ [] then .ok nodes
  else .ok ((List.range fallback_n).map (fun i => ("localhost", 9042 + (i : Int))))

/-- Model of `discover_nodes` (discovery.py): env-var override first (when set and
non-empty — Python's `if override:`), then podman inspection, then the fixed
localhost fallback of `fallback_n` sequential ports starting at 9042. -/
def discover_nodes (env : DiscoveryEnv) (fallback_n : Nat := 4) :
    Except PyErr (List (String × Int)) :=
  match env.override with
  | some s =>
    if s ≠ [] then parseOverride s
    else discoverPodman env fallback_n
  | none => discoverPodman env fallback_n

/-! ## Orchestrator (`main.py`) -/

/-- The scenario-running tail of `main` once at least two nodes were found:
each scenario's result (a `Bool`, or the exception it raised — `main` has no
`try` around the calls, so an exception propagates).  The two network-limit
invocations both assign the Python variable `network_ok`, so the second
assignment overwrites the first; the final `all([...])` therefore reads only
`sql_ok`, `nosql_ok`, `disconnect_ok` and the second `network_ok`.  Returns
the process exit code. -/
def runScenarios (sqlR nosqlR dcR net1R net2R : Except PyErr Bool) :
    Except PyErr Nat := do
  let sql_ok ← sqlR
  let nosql_ok ← nosqlR
  let disconnect_ok ← dcR
  let _network_ok ← net1R
  let network_ok ← net2R
  pure (if sql_ok && nosql_ok && disconnect_ok && network_ok then 0 else 1)

/-- Model of `main` (main.py): discover nodes, exit 1 when fewer than two are found,
otherwise run the five scenarios and exit 0 iff `all([sql_ok, nosql_ok,
disconnect_ok, network_ok])`. -/
def main_model (denv : DiscoveryEnv)
    (sqlR nosqlR dcR net1R net2R : Except PyErr Bool) : Except PyErr Nat :=
  match discover_nodes denv with
  | .error e => .error e
  | .ok nodes =>
    if nodes.length < 2 then .ok 1
    else runScenarios sqlR nosqlR dcR net1R net2R

/-- Modelled from the spec: "Aggregation: overall pass iff every executed
scenario passed."  All five executed scenarios (SQL, NoSQL,
disconnect/reconnect and both network-limit invocations) contribute. -/
def allScenariosPassed (sql nosql dc net1 net2 : Bool) : Bool :=
  sql && nosql && dc && net1 && net2

/-! ## SQL and NoSQL probes (`tests/sql_test.py`, `tests/nosql_test.py`)

Both probes open one session per node, run schema statements and one insert
through the writer (`sessions[0]`), sleep, verify on every reader, and close
all sessions at the end.  There is no `try`/`finally`: any exception raised
by an `execute` propagates out of the function with every opened session
still open.  The second component of each result is the number of sessions
still open when the function exits (normally or exceptionally). -/

/-- Environment for `sql_test`: the outcome (`none` = success, `some e` = the
exception raised) of the keyspace / table / insert statements, the value the
random payload generator produced, and per-reader read outcomes. -/
structure SqlEnv where
  nodes : List (String × Int)
  ksRaise : Option PyErr
  tableRaise : Option PyErr
  insertRaise : Option PyErr
  value : String
  readRaise : Nat → Option PyErr
  readRow : Nat → Option String

/-- The `for (host, port), session in zip(nodes[1:], readers)` verification
loop of `sql_test`: readers are visited in order, an exception from a reader's
`execute` propagates immediately, and a missing row or a non-matching value
just clears `success` and continues. -/
def sqlVerify (env : SqlEnv) : List Nat → Bool → Except PyErr Bool
  | [], success => .ok success
  | i :: is, success =>
    match env.readRaise i with
    | some e => .error e
    | none =>
      match env.readRow i with
      | some v =>
        if v = env.value then sqlVerify env is success
        else sqlVerify env is false
      | none => sqlVerify env is false

/-- Model of `sql_test` (sql_test.py).  Result and number of sessions left open. -/
def sql_test (env : SqlEnv) : Except PyErr Bool × Nat :=
  let n := env.nodes.length
  match env.ksRaise with
  | some e => (.error e, n)
  | none =>
  match env.tableRaise with
  | some e => (.error e, n)
  | none =>
  match env.insertRaise with
  | some e => (.error e, n)
  | none =>
    match sqlVerify env (List.range (n - 1)) true with
    | .error e => (.error e, n)
    | .ok success => (.ok success, 0)

/-- First value bound to a key in an association list — Python `dict` lookup
for the small literal documents this code builds. -/
def dictLookup (k : String) : List (String × String) → Option String
  | [] => none
  | kv :: kvs => if kv.1 = k then some kv.2 else dictLookup k kvs

/-- Python `dict` equality for string-keyed maps: the same keys bound to the
same values, independent of order. -/
def dictEq (a b : List (String × String)) : Bool :=
  a.all (fun kv => dictLookup kv.1 b = some kv.2) &&
  b.all (fun kv => dictLookup kv.1 a = some kv.2)

/-- Environment for `nosql_test`: like `SqlEnv` but the payload is a
`map<text,text>` document. -/
structure NoSqlEnv where
  nodes : List (String × Int)
  ksRaise : Option PyErr
  tableRaise : Option PyErr
  insertRaise : Option PyErr
  doc : List (String × String)
  readRaise : Nat → Option PyErr
  readRow : Nat → Option (List (String × String))

/-- The reader verification loop of `nosql_test` (`row.doc != doc` is Python
dict comparison). -/
def nosqlVerify (env : NoSqlEnv) : List Nat → Bool → Except PyErr Bool
  | [], success => .ok success
  | i :: is, success =>
    match env.readRaise i with
    | some e => .error e
    | none =>
      match env.readRow i with
      | some d =>
        if dictEq d env.doc then nosqlVerify env is success
        else nosqlVerify env is false
      | none => nosqlVerify env is false

/-- Model of `nosql_test` (nosql_test.py).  Result and number of sessions left open. -/
def nosql_test (env : NoSqlEnv) : Except PyErr Bool × Nat :=
  let n := env.nodes.length
  match env.ksRaise with
  | some e => (.error e, n)
  | none =>
  match env.tableRaise with
  | some e => (.error e, n)
  | none =>
  match env.insertRaise with
  | some e => (.error e, n)
  | none =>
    match nosqlVerify env (List.range (n - 1)) true with
    | .error e => (.error e, n)
    | .ok success => (.ok success, 0)

/-! ## Disconnect/reconnect scenario (`tests/disconnect_reconnect_test.py`) -/

/-- Outcome of the single `SELECT` issued against the resumed node: the
`OperationTimedOut` branch sets `row = None`, a missing row is `None` too,
otherwise a row with a value comes back. -/
inductive ReadRes where
  | timeout : ReadRes
  | noRow : ReadRes
  | row (v : String) : ReadRes
  deriving DecidableEq, Repr

/-- Environment for `disconnect_reconnect_test`.  `containerId` is the podman
lookup result for the paused node's port; `ksT1/ksT2`, `tbT1/tbT2`,
`insT1/insT2` tell whether each attempt of the keyspace / table / insert
statements raised `OperationTimedOut` (those are the only exceptions the
function catches); `randValue` is `random.randint(1000, 9999)`; `reads n` is
what the n-th read of the resumed node would return — the code performs only
read 0.  The `podman pause`/`unpause` commands are modelled as succeeding. -/
structure DCEnv where
  nodes : List (String × Int)
  pauseIdx : Nat
  containerId : Option String
  ksT1 : Bool
  ksT2 : Bool
  tbT1 : Bool
  tbT2 : Bool
  insT1 : Bool
  insT2 : Bool
  randValue : Nat
  reads : Nat → ReadRes

/-- Model of `test_value = "reconnect_" + str(random.randint(1000, 9999))`. -/
def dcTestValue (env : DCEnv) : String :=
  "reconnect_" ++ Nat.repr env.randValue

/-- Model of `disconnect_reconnect_test` (disconnect_reconnect_test.py), statement by
statement: container lookup, `podman pause`, keyspace creation with one retry
on timeout, table creation with two attempts, insert with two attempts,
`podman unpause`, a 10-second sleep, then a single read of the written id on
the resumed node (timeout → `row = None`), session shutdown, and the final
comparison.  The second component records whether the node is still paused
when the function returns. -/
def disconnect_reconnect_test (env : DCEnv) : Except PyErr Bool × Bool :=
  match env.containerId with
  | none => (.ok false, false)
  | some _cid =>
    -- podman pause: the node is paused from here on
    if env.ksT1 && env.ksT2 then (.ok false, true)
    else if env.tbT1 && env.tbT2 then (.ok false, true)
    else if env.insT1 && env.insT2 then (.ok false, true)
    else
      -- podman unpause, sleep(10), single verification read (index 0)
      match env.reads 0 with
      | .timeout => (.ok false, false)
      | .noRow => (.ok false, false)
      | .row v => (.ok (v = dcTestValue env), false)

/-! ## Throttled-bandwidth scenario (`tests/network_limit_test.py`) -/

/-- The replication-measurement loop of `network_limit_test` under a
discrete-time model: each iteration queries the row count on the throttled
node at the current `elapsed` second, breaks when it reaches `rows`, and
otherwise sleeps one second (advancing `elapsed` by one, matching
`elapsed = time.time() - start_time` with instantaneous queries).  The
returned flag records whether the loop exited via the `count >= rows` break
(`true`) or via the `elapsed < timeout` condition going false (`false`); the
second component is `elapsed` at exit. -/
def netPollLoop (counts : Nat → Nat) (rows : Nat) (timeout : ℚ) (elapsed : Nat) :
    Bool × Nat :=
  if h : (elapsed : ℚ) < timeout then
    if rows ≤ counts elapsed then (true, elapsed)
    else netPollLoop counts rows timeout (elapsed + 1)
  else (false, elapsed)
termination_by (⌈timeout⌉).toNat - elapsed
decreasing_by
  have h1 : (elapsed : ℤ) < ⌈timeout⌉ := Int.lt_ceil.mpr (by exact_mod_cast h)
  have h2 : elapsed < (⌈timeout⌉).toNat := Int.lt_toNat.mpr h1
  omega

/-- Environment for `network_limit_test`: the podman container lookup for the
throttled node, whether the `tc qdisc add` and `tc qdisc del` commands
succeed, and the row count the throttled node reports at each second.  The
session setup and the `rows` inserts are modelled as succeeding. -/
structure NetEnv where
  nodes : List (String × Int)
  throttleIdx : Nat
  containerId : Option String
  tcAddOk : Bool
  tcDelOk : Bool
  counts : Nat → Nat

/-- Model of `network_limit_test` (network_limit_test.py): find the container, apply
the `tc` throttle (a `CalledProcessError` is caught and yields `False`),
insert the rows, compute
`timeout = rows * value_size / (int(rate.rstrip("kbit")) * 128) + 10`
(an unparsable stripped rate raises `ValueError`, a zero divisor raises
`ZeroDivisionError` — both uncaught, with the throttle still installed), run
the measurement loop, remove the throttle inside a `try`/`except` that only
logs on failure, shut the sessions down and return `True`.  The second
component records whether the egress throttle is still installed when the
function exits. -/
def network_limit_test (env : NetEnv) (rate : List Char) (rows value_size : Nat) :
    Except PyErr Bool × Bool :=
  match env.containerId with
  | none => (.ok false, false)
  | some _cid =>
    if !env.tcAddOk then (.ok false, false)
    else
      -- writer session, keyspace, table and the `rows` inserts happen here
      match pyInt (pyRstrip "kbit".toList rate) with
      | none => (.error .valueError, true)
      | some k =>
        if k * 128 = 0 then (.error .zeroDivError, true)
        else
          let timeout : ℚ := ((rows : ℚ) * (value_size : ℚ)) / ((k : ℚ) * 128) + 10
          let _poll := netPollLoop env.counts rows timeout 0
          -- tc qdisc del (failure only logged), session shutdowns
          (.ok true, !env.tcDelOk)

/-! ## Auxiliary definitions for the statements of the claims -/

/-- Whether the single verification read of the resumed node came back with a
row holding exactly the written value (the final
`if not row or row.value != test_value` test of the disconnect scenario). -/
def readMatches (r : ReadRes) (w : String) : Bool :=
  match r with
  | .row v => v = w
  | _ => false

/-- Render one abstract `host[:port]` entry of an override string. -/
def renderEntry (e : List Char × Option (List Char)) : List Char :=
  match e.2 with
  | none => e.1
  | some d => e.1 ++ ':' :: d

/-- Comma-join a list of entry strings (inverse direction of `pySplit ','`). -/
def joinComma : List (List Char) → List Char
  | [] => []
  | [x] => x
  | x :: y :: ys => x ++ ',' :: joinComma (y :: ys)

/-- The node an override entry should parse to: its host verbatim and its
explicit port when one is given, port 9042 otherwise. -/
def entryNode (e : List Char × Option (List Char)) : String × Int :=
  (String.mk e.1, match e.2 with | none => 9042 | some d => (digitsVal d : Int))

/-- Well-formedness of the optional port of an override entry: absent, or a
nonempty string of decimal digits. -/
def portOk : Option (List Char) → Prop
  | none => True
  | some d => d ≠ [] ∧ ∀ c ∈ d, c.isDigit = true

instance : DecidablePred portOk := fun o => by
  cases o with
  | none => exact .isTrue trivial
  | some d => unfold portOk; infer_instance

/-- Well-formedness of the host of an override entry: nonempty, with no comma
and no colon in it. -/
def hostOk (h : List Char) : Prop :=
  h ≠ [] ∧ ∀ c ∈ h, c ≠ ',' ∧ c ≠ ':'

instance : DecidablePred hostOk := fun h => by unfold hostOk; infer_instance

example : pySplit ',' "a,b".toList = ["a".toList, "b".toList] := by decide
example : pySplit ',' "".toList = [[]] := by decide
example : partitionAt ':' "h:12".toList = ("h".toList, "12".toList) := by decide
example : partitionAt ':' "h".toList = ("h".toList, []) := by decide
example : pyRstrip "kbit".toList "10mbit".toList = "10m".toList := by decide
example : pyRstrip "kbit".toList "100kbit".toList = "100".toList := by decide
example : pyInt "100".toList = some 100 := by decide
example : pyInt "10m".toList = none := by decide
example : pyInt "".toList = none := by decide

/-! ## Shared helper lemmas -/

/-- The reader loop of `sql_test` cannot raise when no reader's `execute`
raises. -/
lemma sqlVerify_ok (env : SqlEnv) (h : ∀ i, env.readRaise i = none)
    (l : List Nat) : ∀ acc : Bool, ∃ b, sqlVerify env l acc = .ok b := by
  induction l with
  | nil => intro acc; exact ⟨acc, rfl⟩
  | cons i is ih =>
    intro acc
    simp only [sqlVerify, h i]
    cases hr : env.readRow i with
    | none => simpa using ih false
    | some v =>
      by_cases hv : v = env.value
      · simpa [hv] using ih acc
      · simpa [hv] using ih false

/-- The reader loop of `nosql_test` cannot raise when no reader's `execute`
raises. -/
lemma nosqlVerify_ok (env : NoSqlEnv) (h : ∀ i, env.readRaise i = none)
    (l : List Nat) : ∀ acc : Bool, ∃ b, nosqlVerify env l acc = .ok b := by
  induction l with
  | nil => intro acc; exact ⟨acc, rfl⟩
  | cons i is ih =>
    intro acc
    simp only [nosqlVerify, h i]
    cases hr : env.readRow i with
    | none => simpa using ih false
    | some d =>
      cases hd : dictEq d env.doc with
      | true => simpa [hd] using ih acc
      | false => simpa [hd] using ih false

/-- Whenever the container is found, the `tc` throttle installs, and the rate
string parses to a nonzero divisor, `network_limit_test` runs to its final
`return True` — independently of the row counts the throttled node ever
reports — and the throttle is installed at exit iff the `tc qdisc del`
command failed. -/
lemma network_limit_test_run (env : NetEnv) (rate : List Char) (rows vs : Nat)
    (c : String) (hc : env.containerId = some c) (hadd : env.tcAddOk = true)
    (k : Int) (hk : pyInt (pyRstrip "kbit".toList rate) = some k)
    (hk0 : k * 128 ≠ 0) :
    network_limit_test env rate rows vs = (.ok true, !env.tcDelOk) := by
  unfold network_limit_test
  rw [hc, hk]
  simp [hadd, hk0]

/-- On the paths of the disconnect scenario that get past the insert (no step
exhausted its retries), the container is unpaused and the result is the
comparison of the single read at index 0 with the written value. -/
lemma disconnect_reconnect_test_run (env : DCEnv) (c : String)
    (hc : env.containerId = some c) (hks : (env.ksT1 && env.ksT2) = false)
    (htb : (env.tbT1 && env.tbT2) = false)
    (hins : (env.insT1 && env.insT2) = false) :
    disconnect_reconnect_test env =
      (.ok (readMatches (env.reads 0) (dcTestValue env)), false) := by
  cases h0 : env.reads 0 <;>
    simp [disconnect_reconnect_test, hc, hks, htb, hins, h0, readMatches]

/-! ## Claims -/

/-- C1: the claim states that the process exits 0 iff every executed scenario
(SQL, NoSQL, disconnect/reconnect and each of the two network-limit
invocations) passed.  In the code the second `network_ok = network_limit_test
(...)` assignment overwrites the first, so the first network-limit outcome is
excluded from `all([sql_ok, nosql_ok, disconnect_ok, network_ok])`: with
every scenario passing except the first network-limit invocation, `main`
exits 0, while the aggregate over all five executed scenarios is `false`. -/
theorem c1_first_network_outcome_excluded :
    main_model ⟨some "h1:9042,h2:9043".toList, true, []⟩
      (.ok true) (.ok true) (.ok true) (.ok false) (.ok true) = .ok 0 ∧
    allScenariosPassed true true true false true = false :=
  ⟨rfl, rfl⟩

/-- C3 (counterexample): an exception raised inside the SQL scenario is not
caught at the scenario boundary — `main` has no `try` around the scenario
calls — so the run aborts with the exception instead of finishing with a
summary and an exit code. -/
theorem c3_counterexample :
    main_model ⟨some "h1:9042,h2:9043".toList, true, []⟩
      (.error .opTimedOut) (.ok true) (.ok true) (.ok true) (.ok true)
      = .error .opTimedOut := rfl

/-- C3 (amended): there is no catch at the scenario boundary: an exception a
scenario does not itself handle propagates out of the orchestrator
unchanged, aborting the run without a summary or exit code (first conjunct).
What the scenarios do handle internally is converted into a failed scenario
result rather than a crash: the disconnect scenario catches
`OperationTimedOut` at its keyspace, table and insert statements — each
retried once, with exhaustion yielding `False` (second conjunct) — and at
its verification read, where a timeout is treated as a missing row and
yields `False` (third conjunct); the throttled scenario catches
`CalledProcessError` at its `tc qdisc add` command and returns `False`
(fourth conjunct), and at its `tc qdisc del` command, where the failure is
only logged. -/
theorem c3_amended (e : PyErr) (r2 r3 r4 r5 : Except PyErr Bool)
    (envA : DCEnv) (cA : String) (hcA : envA.containerId = some cA)
    (h1 : envA.ksT1 = true) (h2 : envA.ksT2 = true)
    (envB : DCEnv) (cB : String) (hcB : envB.containerId = some cB)
    (g1 : (envB.ksT1 && envB.ksT2) = false)
    (g2 : (envB.tbT1 && envB.tbT2) = false)
    (g3 : (envB.insT1 && envB.insT2) = false)
    (g4 : envB.reads 0 = .timeout)
    (envC : NetEnv) (cC : String) (hcC : envC.containerId = some cC)
    (hadd : envC.tcAddOk = false) (rate : List Char) (rows vs : Nat) :
    runScenarios (.error e) r2 r3 r4 r5 = .error e ∧
    disconnect_reconnect_test envA = (.ok false, true) ∧
    disconnect_reconnect_test envB = (.ok false, false) ∧
    network_limit_test envC rate rows vs = (.ok false, false) := by
  refine ⟨rfl, ?_, ?_, ?_⟩
  · simp [disconnect_reconnect_test, hcA, h1, h2]
  · rw [disconnect_reconnect_test_run envB cB hcB g1 g2 g3, g4]
    rfl
  · simp [network_limit_test, hcC, hadd]

/-- C3 (witness): the amended claim at concrete inputs — a timeout raised by
the SQL scenario propagates out of the orchestrator; a disconnect scenario
whose keyspace creation times out twice reports `False` instead of raising;
a disconnect scenario whose verification read times out reports `False`; and
a throttled scenario whose `tc qdisc add` fails reports `False`. -/
theorem c3_witness :
    runScenarios (.error .opTimedOut) (.ok true) (.ok true) (.ok true)
        (.ok true) = .error .opTimedOut ∧
    disconnect_reconnect_test ⟨[("localhost", 9042), ("localhost", 9043)], 0,
        some "cid", true, true, false, false, false, false, 1234,
        fun _ => .noRow⟩ = (.ok false, true) ∧
    disconnect_reconnect_test ⟨[("localhost", 9042), ("localhost", 9043)], 0,
        some "cid", false, false, false, false, false, false, 1234,
        fun _ => .timeout⟩ = (.ok false, false) ∧
    network_limit_test ⟨[("localhost", 9042), ("localhost", 9043)], 0,
        some "cid", false, true, fun _ => 0⟩ "100kbit".toList 500 10000
        = (.ok false, false) :=
  c3_amended .opTimedOut (.ok true) (.ok true) (.ok true) (.ok true)
    ⟨[("localhost", 9042), ("localhost", 9043)], 0, some "cid", true, true,
      false, false, false, false, 1234, fun _ => .noRow⟩ "cid" rfl rfl rfl
    ⟨[("localhost", 9042), ("localhost", 9043)], 0, some "cid", false, false,
      false, false, false, false, 1234, fun _ => .timeout⟩ "cid" rfl rfl rfl
      rfl rfl
    ⟨[("localhost", 9042), ("localhost", 9043)], 0, some "cid", false, true,
      fun _ => 0⟩ "cid" rfl rfl "100kbit".toList 500 10000

/-- C8 (counterexample): `discover_nodes` does not fail on a resolved list
with fewer than two entries — a one-entry override is parsed and returned to
the caller as a one-element list. -/
theorem c8_counterexample :
    discover_nodes ⟨some "10.0.0.5:9042".toList, true, []⟩ =
      .ok [("10.0.0.5", 9042)] := rfl

/-- C8 (amended): `discover_nodes` itself returns the resolved list even when
it has fewer than two entries (here: whatever a truthy override parses to,
whatever its length); the insufficient-node check lives in `main`, which
exits with code 1 — before executing any scenario — whenever the discovered
list has fewer than two entries. -/
theorem c8_amended (env : DiscoveryEnv) (s : List Char)
    (ns : List (String × Int)) (ho : env.override = some s) (hne : s ≠ [])
    (hp : parseOverride s = .ok ns) (denv : DiscoveryEnv)
    (r1 r2 r3 r4 r5 : Except PyErr Bool) (nodes : List (String × Int))
    (hd : discover_nodes denv = .ok nodes) (hlen : nodes.length < 2) :
    discover_nodes env = .ok ns ∧
    main_model denv r1 r2 r3 r4 r5 = .ok 1 := by
  constructor
  · simp [discover_nodes, ho, hne, hp]
  · simp [main_model, hd, hlen]

/-- C8 (witness): the amended claim at a concrete input — a single-entry
override is returned as a one-element list, and `main` with that discovery
environment exits 1. -/
theorem c8_witness :
    discover_nodes ⟨some "10.0.0.5:9042".toList, true, []⟩ =
      .ok [("10.0.0.5", 9042)] ∧
    main_model ⟨some "10.0.0.5:9042".toList, true, []⟩
      (.ok true) (.ok true) (.ok true) (.ok true) (.ok true) = .ok 1 :=
  c8_amended ⟨some "10.0.0.5:9042".toList, true, []⟩ "10.0.0.5:9042".toList
    [("10.0.0.5", 9042)] rfl (by decide) rfl
    ⟨some "10.0.0.5:9042".toList, true, []⟩
    (.ok true) (.ok true) (.ok true) (.ok true) (.ok true)
    [("10.0.0.5", 9042)] rfl (by decide)

/-- C6 (counterexample): an exception raised mid-probe leaves every opened
session unclosed — with three nodes and a keyspace-creation timeout,
`sql_test` propagates the exception while all three sessions it opened are
still open (the function has no `try`/`finally` around its statements). -/
theorem c6_counterexample :
    sql_test ⟨[("localhost", 9042), ("localhost", 9043), ("localhost", 9044)],
      some .opTimedOut, none, none, "v", fun _ => none, fun _ => none⟩
      = (.error .opTimedOut, 3) := rfl

/-- C6 (amended): both consistency probes close every session they opened
before returning on the non-exceptional paths — whenever no statement raises,
the probe returns a boolean with zero sessions left open (success and
mismatch alike).  An exception raised mid-probe, however, propagates with the
opened sessions unclosed. -/
theorem c6_amended (se : SqlEnv) (nse : NoSqlEnv)
    (h1 : se.ksRaise = none) (h2 : se.tableRaise = none)
    (h3 : se.insertRaise = none) (h4 : ∀ i, se.readRaise i = none)
    (g1 : nse.ksRaise = none) (g2 : nse.tableRaise = none)
    (g3 : nse.insertRaise = none) (g4 : ∀ i, nse.readRaise i = none) :
    (sql_test se).2 = 0 ∧ (nosql_test nse).2 = 0 := by
  constructor
  · obtain ⟨b, hb⟩ := sqlVerify_ok se h4 (List.range (se.nodes.length - 1)) true
    simp [sql_test, h1, h2, h3, hb]
  · obtain ⟨b, hb⟩ :=
      nosqlVerify_ok nse g4 (List.range (nse.nodes.length - 1)) true
    simp [nosql_test, g1, g2, g3, hb]

/-- C6 (witness): the amended claim at concrete two-node environments in
which nothing raises — both probes exit with zero open sessions. -/
theorem c6_witness :
    (sql_test ⟨[("localhost", 9042), ("localhost", 9043)], none, none, none,
      "v", fun _ => none, fun _ => some "v"⟩).2 = 0 ∧
    (nosql_test ⟨[("localhost", 9042), ("localhost", 9043)], none, none, none,
      [("user", "alice")], fun _ => none, fun _ => some [("user", "alice")]⟩).2
      = 0 :=
  c6_amended
    ⟨[("localhost", 9042), ("localhost", 9043)], none, none, none,
      "v", fun _ => none, fun _ => some "v"⟩
    ⟨[("localhost", 9042), ("localhost", 9043)], none, none, none,
      [("user", "alice")], fun _ => none, fun _ => some [("user", "alice")]⟩
    rfl rfl rfl (fun _ => rfl) rfl rfl rfl (fun _ => rfl)

/-- C4 (counterexample): a scenario can return while leaving its node paused
— when the disconnect scenario's keyspace creation times out on both
attempts, the function returns `False` with the chosen container still
paused (the early failure paths run no `podman unpause`). -/
theorem c4_counterexample :
    disconnect_reconnect_test ⟨[("localhost", 9042), ("localhost", 9043)], 0,
      some "cid", true, true, false, false, false, false, 1234,
      fun _ => .noRow⟩ = (.ok false, true) := rfl

/-- C4 (amended): faults are torn down on the paths that reach the teardown
step: when the disconnect scenario's keyspace, table and insert statements
each succeed within their retries, the node is unpaused before the scenario
returns (whatever the verification read yields), and when the throttled
scenario's setup succeeds, its rate parses and the `tc qdisc del` command
succeeds, the egress rule is removed before the scenario returns (whatever
the row counts did).  The failure paths before those steps, however, return
with the fault still in place. -/
theorem c4_amended (de : DCEnv) (c : String) (hc : de.containerId = some c)
    (hks : (de.ksT1 && de.ksT2) = false) (htb : (de.tbT1 && de.tbT2) = false)
    (hins : (de.insT1 && de.insT2) = false)
    (ne : NetEnv) (c2 : String) (hc2 : ne.containerId = some c2)
    (hadd : ne.tcAddOk = true) (hdel : ne.tcDelOk = true)
    (rate : List Char) (k : Int)
    (hk : pyInt (pyRstrip "kbit".toList rate) = some k) (hk0 : k * 128 ≠ 0)
    (rows vs : Nat) :
    (disconnect_reconnect_test de).2 = false ∧
    (network_limit_test ne rate rows vs).2 = false := by
  constructor
  · rw [disconnect_reconnect_test_run de c hc hks htb hins]
  · rw [network_limit_test_run ne rate rows vs c2 hc2 hadd k hk hk0, hdel]
    rfl

/-- C4 (witness): the amended claim at concrete inputs — a disconnect run
whose statements all succeed exits unpaused, and a throttled run at
`rate="100kbit"` whose `tc` commands succeed exits unthrottled. -/
theorem c4_witness :
    (disconnect_reconnect_test ⟨[("localhost", 9042), ("localhost", 9043)], 0,
      some "cid", false, false, false, false, false, false, 1234,
      fun _ => .noRow⟩).2 = false ∧
    (network_limit_test ⟨[("localhost", 9042), ("localhost", 9043)], 0,
      some "cid", true, true, fun _ => 0⟩ "100kbit".toList 500 10000).2
      = false :=
  c4_amended
    ⟨[("localhost", 9042), ("localhost", 9043)], 0, some "cid", false, false,
      false, false, false, false, 1234, fun _ => .noRow⟩ "cid" rfl rfl rfl rfl
    ⟨[("localhost", 9042), ("localhost", 9043)], 0, some "cid", true, true,
      fun _ => 0⟩ "cid" rfl rfl rfl
    "100kbit".toList 100 (by decide) (by decide) 500 10000

/-- C5 (counterexample): there is no convergence polling after the resume —
with a read sequence whose first read finds no row but whose every later
read returns the written value, the scenario still reports `False`: it
issues exactly one read (a poll with any window of at least two one-second
reads would have seen the value at the second read). -/
theorem c5_counterexample :
    disconnect_reconnect_test ⟨[("localhost", 9042), ("localhost", 9043)], 0,
      some "cid", false, false, false, false, false, false, 1234,
      fun n => if n = 0 then .noRow else .row "reconnect_1234"⟩
      = (.ok false, false) ∧
    (fun n => if n = 0 then ReadRes.noRow else .row "reconnect_1234") 1
      = .row (dcTestValue ⟨[("localhost", 9042), ("localhost", 9043)], 0,
        some "cid", false, false, false, false, false, false, 1234,
        fun n => if n = 0 then .noRow else .row "reconnect_1234"⟩) :=
  ⟨rfl, rfl⟩

/-- C5 (amended): after the resume the harness waits a fixed ten-second
settle interval and issues exactly one bounded read of the written record on
the resumed node; the scenario's outcome is the comparison of that single
read with the written value — a missing row, a timed-out read or a mismatch
yields a failed scenario result (`False`), not a crash. -/
theorem c5_amended (env : DCEnv) (c : String) (hc : env.containerId = some c)
    (hks : (env.ksT1 && env.ksT2) = false)
    (htb : (env.tbT1 && env.tbT2) = false)
    (hins : (env.insT1 && env.insT2) = false) :
    disconnect_reconnect_test env =
      (.ok (readMatches (env.reads 0) (dcTestValue env)), false) :=
  disconnect_reconnect_test_run env c hc hks htb hins

/-- C5 (witness): the amended claim at a concrete input whose single read
times out — the scenario returns `False` without raising. -/
theorem c5_witness :
    disconnect_reconnect_test ⟨[("localhost", 9042), ("localhost", 9043)], 0,
      some "cid", false, false, false, false, false, false, 1234,
      fun _ => .timeout⟩ =
      (.ok (readMatches (ReadRes.timeout) (dcTestValue
        ⟨[("localhost", 9042), ("localhost", 9043)], 0, some "cid", false,
          false, false, false, false, false, 1234, fun _ => .timeout⟩)),
        false) :=
  c5_amended ⟨[("localhost", 9042), ("localhost", 9043)], 0, some "cid",
    false, false, false, false, false, false, 1234, fun _ => .timeout⟩
    "cid" rfl rfl rfl rfl

/-- When the row count never reaches `rows`, the measurement loop exits via
its `elapsed < timeout` condition going false, with an exit time of at most
one poll interval beyond the timeout (auxiliary form, by strong induction on
the remaining fuel). -/
lemma netPollLoopNeverAux (counts : Nat → Nat) (rows : Nat) (timeout : ℚ)
    (h : ∀ t, counts t < rows) (n : Nat) :
    ∀ e : Nat, (⌈timeout⌉).toNat - e = n →
      (netPollLoop counts rows timeout e).1 = false ∧
      ((netPollLoop counts rows timeout e).2 : ℚ) ≤ max (e : ℚ) (timeout + 1) := by
  induction n using Nat.strong_induction_on with
  | _ n ih =>
    intro e hn
    rw [netPollLoop]
    by_cases hlt : (e : ℚ) < timeout
    · rw [dif_pos hlt, if_neg (Nat.not_le.mpr (h e))]
      have h1 : (e : ℤ) < ⌈timeout⌉ := Int.lt_ceil.mpr (by exact_mod_cast hlt)
      have h2 : e < (⌈timeout⌉).toNat := Int.lt_toNat.mpr h1
      have hm : (⌈timeout⌉).toNat - (e + 1) < n := by omega
      obtain ⟨ha, hb⟩ := ih _ hm (e + 1) rfl
      refine ⟨ha, le_trans hb ?_⟩
      have hc : ((e + 1 : Nat) : ℚ) ≤ timeout + 1 := by push_cast; linarith
      exact max_le (le_trans hc (le_max_right _ _)) (le_max_right _ _)
    · rw [dif_neg hlt]
      exact ⟨rfl, le_max_left _ _⟩

/-- When the row count never reaches `rows`, the measurement loop reports no
match and exits within one poll interval of the timeout. -/
lemma netPollLoop_never (counts : Nat → Nat) (rows : Nat) (timeout : ℚ)
    (h : ∀ t, counts t < rows) (e : Nat) :
    (netPollLoop counts rows timeout e).1 = false ∧
    ((netPollLoop counts rows timeout e).2 : ℚ) ≤ max (e : ℚ) (timeout + 1) :=
  netPollLoopNeverAux counts rows timeout h _ e rfl

/-- C2 (counterexample): the throttled-bandwidth scenario does not return
`false` when the throttled node never holds all inserted records within the
computed timeout — with a node whose row count stays 0 forever (so the poll
loop itself reports no convergence, second conjunct), the scenario still
returns `True` after the timeout expires, because the loop's outcome is only
logged and never influences the return value. -/
theorem c2_counterexample :
    network_limit_test ⟨[("localhost", 9042), ("localhost", 9043)], 0,
      some "cid", true, true, fun _ => 0⟩ "100kbit".toList 10 10000
      = (.ok true, false) ∧
    (netPollLoop (fun _ => 0) 10
      (((10 : ℚ) * 10000) / ((100 : ℚ) * 128) + 10) 0).1 = false := by
  constructor
  · rw [network_limit_test_run _ _ _ _ "cid" rfl rfl 100 (by decide) (by decide)]
    rfl
  · exact (netPollLoop_never (fun _ => 0) 10 _ (fun t => by norm_num) 0).1

/-- C2 (amended): the scenario returns `false` only on setup failure
(container not found, or the `tc` throttle failing to install); whenever the
setup succeeds and the rate string parses to a nonzero divisor it returns
`true`, whether or not the throttled node was observed to hold all `rows`
records within the computed timeout
`rows * value_size / (int(rate.rstrip("kbit")) * 128) + 10`. -/
theorem c2_amended (env : NetEnv) (rate : List Char) (rows vs : Nat)
    (c : String) (hc : env.containerId = some c) (hadd : env.tcAddOk = true)
    (k : Int) (hk : pyInt (pyRstrip "kbit".toList rate) = some k)
    (hk0 : k * 128 ≠ 0) :
    (network_limit_test env rate rows vs).1 = .ok true := by
  rw [network_limit_test_run env rate rows vs c hc hadd k hk hk0]

/-- C2 (witness): the amended claim at a concrete input — a run at
`rate="10kbit"` with a never-converging reader returns `True`. -/
theorem c2_witness :
    (network_limit_test ⟨[("localhost", 9042), ("localhost", 9043)], 0,
      some "cid", true, false, fun _ => 0⟩ "10kbit".toList 500 10000).1
      = .ok true :=
  c2_amended _ _ _ _ "cid" rfl rfl 10 (by decide) (by decide)

/-- C9: for every row-count predicate, including one that never reaches
`rows`, the convergence polling loop terminates (it is a total function of
its fuel, which the timeout bounds): polling once per second from time 0, it
returns `matched = false` with an exit time of at most `timeout` plus one
poll interval — it never loops indefinitely. -/
theorem c9_poll_terminates (counts : Nat → Nat) (rows : Nat) (timeout : ℚ)
    (h0 : 0 ≤ timeout) (h : ∀ t, counts t < rows) :
    (netPollLoop counts rows timeout 0).1 = false ∧
    ((netPollLoop counts rows timeout 0).2 : ℚ) ≤ timeout + 1 := by
  obtain ⟨h1, h2⟩ := netPollLoop_never counts rows timeout h 0
  refine ⟨h1, ?_⟩
  have hmx : max ((0 : Nat) : ℚ) (timeout + 1) = timeout + 1 := by
    rw [Nat.cast_zero]
    exact max_eq_right (by linarith)
  rwa [hmx] at h2

/-- C9 (witness): the loop with a predicate that never becomes true, at
`rows = 1`, `timeout = 3`: it reports no match within 4 seconds. -/
theorem c9_witness :
    (netPollLoop (fun _ => 0) 1 3 0).1 = false ∧
    ((netPollLoop (fun _ => 0) 1 3 0).2 : ℚ) ≤ 3 + 1 :=
  c9_poll_terminates (fun _ => 0) 1 3 (by norm_num) (fun t => Nat.zero_lt_one)

/-- C10: for every rate string whose remainder after stripping the trailing
characters `k`, `b`, `i`, `t` is not a decimal integer, the timeout
computation `int(rate.rstrip("kbit"))` raises an uncaught `ValueError`; this
happens after the `tc` egress-shaping rule was applied and before the removal
statement, so the scenario neither returns a boolean nor removes the
throttle. -/
theorem c10_bad_rate_raises (env : NetEnv) (rate : List Char) (rows vs : Nat)
    (c : String) (hc : env.containerId = some c) (hadd : env.tcAddOk = true)
    (hbad : pyInt (pyRstrip "kbit".toList rate) = none) :
    network_limit_test env rate rows vs = (.error .valueError, true) := by
  unfold network_limit_test
  rw [hc, hbad]
  simp [hadd]

/-- C10 (witness): the claim at `rate = "10mbit"` — `"10mbit".rstrip("kbit")`
is `"10m"`, which is not a decimal integer, so the scenario exits with a
`ValueError` while the throttle is still installed. -/
theorem c10_witness :
    network_limit_test ⟨[("localhost", 9042), ("localhost", 9043)], 0,
      some "cid", true, true, fun _ => 0⟩ "10mbit".toList 500 10000
      = (.error .valueError, true) :=
  c10_bad_rate_raises _ _ _ _ "cid" rfl rfl (by decide)

/-! ## Override-string parsing (claim C7) -/

/-- Splitting never yields an empty list of parts. -/
lemma pySplit_ne_nil (c : Char) (s : List Char) : pySplit c s ≠ [] := by
  induction s with
  | nil => simp [pySplit]
  | cons x xs ih =>
    simp only [pySplit]
    cases h : pySplit c xs with
    | nil => simp
    | cons p ps => by_cases hx : x = c <;> simp [hx]

/-- Splitting a string without the separator yields that single part. -/
lemma pySplit_no_sep (c : Char) (xs : List Char) (h : c ∉ xs) :
    pySplit c xs = [xs] := by
  induction xs with
  | nil => rfl
  | cons x xs ih =>
    have hx : ¬ x = c := by rintro rfl; exact h (List.mem_cons_self _ _)
    have h' : c ∉ xs := fun hm => h (List.mem_cons_of_mem _ hm)
    simp [pySplit, ih h', hx]

/-- Splitting peels off a separator-free prefix before the first separator. -/
lemma pySplit_append (c : Char) (xs rest : List Char) (h : c ∉ xs) :
    pySplit c (xs ++ c :: rest) = xs :: pySplit c rest := by
  induction xs with
  | nil =>
    simp only [List.nil_append, pySplit]
    cases hr : pySplit c rest with
    | nil => exact absurd hr (pySplit_ne_nil c rest)
    | cons p ps => simp
  | cons x xs ih =>
    have hx : ¬ x = c := by rintro rfl; exact h (List.mem_cons_self _ _)
    have h' : c ∉ xs := fun hm => h (List.mem_cons_of_mem _ hm)
    simp only [List.cons_append, pySplit, List.append_eq]
    rw [ih h']
    simp [hx]

/-- Splitting on commas undoes the comma join of comma-free parts. -/
lemma pySplit_joinComma (l : List (List Char)) (h : ∀ x ∈ l, ',' ∉ x)
    (hl : l ≠ []) : pySplit ',' (joinComma l) = l := by
  induction l with
  | nil => exact absurd rfl hl
  | cons x xs ih =>
    cases xs with
    | nil =>
      simp only [joinComma]
      exact pySplit_no_sep ',' x (h x (List.mem_cons_self _ _))
    | cons y ys =>
      have hx : ',' ∉ x := h x (List.mem_cons_self _ _)
      have hrec := ih (fun z hz => h z (List.mem_cons_of_mem _ hz)) (by simp)
      calc pySplit ',' (joinComma (x :: y :: ys))
          = pySplit ',' (x ++ ',' :: joinComma (y :: ys)) := rfl
        _ = x :: pySplit ',' (joinComma (y :: ys)) :=
            pySplit_append ',' x _ hx
        _ = x :: (y :: ys) := by rw [hrec]

/-- Partitioning a separator-free string leaves the remainder empty. -/
lemma partitionAt_no_sep (c : Char) (s : List Char) (h : c ∉ s) :
    partitionAt c s = (s, []) := by
  induction s with
  | nil => rfl
  | cons x xs ih =>
    have hx : ¬ x = c := by rintro rfl; exact h (List.mem_cons_self _ _)
    have h' : c ∉ xs := fun hm => h (List.mem_cons_of_mem _ hm)
    simp [partitionAt, hx, ih h']

/-- Partitioning splits at the first separator occurrence. -/
lemma partitionAt_append (c : Char) (b a : List Char) (h : c ∉ b) :
    partitionAt c (b ++ c :: a) = (b, a) := by
  induction b with
  | nil => simp [partitionAt]
  | cons x xs ih =>
    have hx : ¬ x = c := by rintro rfl; exact h (List.mem_cons_self _ _)
    have h' : c ∉ xs := fun hm => h (List.mem_cons_of_mem _ hm)
    simp [partitionAt, hx, ih h']

/-- A nonempty all-digit string parses to its decimal value. -/
lemma pyInt_digits (d : List Char) (hne : d ≠ [])
    (hd : ∀ c ∈ d, c.isDigit = true) :
    pyInt d = some (digitsVal d : Int) := by
  have hall : d.all Char.isDigit = true := List.all_eq_true.mpr hd
  simp [pyInt, hne, hall]

/-- An entry without a colon parses to its host and the default port 9042. -/
lemma parseSpec_no_port (h : List Char) (hne : h ≠ []) (hc : ':' ∉ h) :
    parseSpec h = .ok (String.mk h, 9042) := by
  simp [parseSpec, partitionAt_no_sep ':' h hc, hne]

/-- An entry `host:digits` parses to its host and the digits' value. -/
lemma parseSpec_with_port (h d : List Char) (hne : h ≠ []) (hch : ':' ∉ h)
    (hdne : d ≠ []) (hdd : ∀ c ∈ d, c.isDigit = true) :
    parseSpec (h ++ ':' :: d) = .ok (String.mk h, (digitsVal d : Int)) := by
  simp [parseSpec, partitionAt_append ':' h d hch, hne, hdne,
    pyInt_digits d hdne hdd]

/-- A rendered entry with a well-formed host and port contains no comma. -/
lemma renderEntry_no_comma (e : List Char × Option (List Char))
    (hh : hostOk e.1) (hp : portOk e.2) : ',' ∉ renderEntry e := by
  intro hm
  cases he : e.2 with
  | none =>
    simp only [renderEntry, he] at hm
    exact (hh.2 ',' hm).1 rfl
  | some d =>
    have hp' : d ≠ [] ∧ ∀ c ∈ d, c.isDigit = true := by
      rw [he] at hp; exact hp
    simp only [renderEntry, he, List.mem_append, List.mem_cons] at hm
    rcases hm with hm | hm | hm
    · exact (hh.2 ',' hm).1 rfl
    · exact absurd hm (by decide)
    · exact absurd (hp'.2 ',' hm) (by decide)

/-- Parsing one rendered entry yields its host and its (defaulted) port. -/
lemma parseSpec_renderEntry (e : List Char × Option (List Char))
    (hh : hostOk e.1) (hp : portOk e.2) :
    parseSpec (renderEntry e) = .ok (entryNode e) := by
  obtain ⟨h1, h2⟩ := hh
  have hch : ':' ∉ e.1 := fun hm => (h2 _ hm).2 rfl
  cases he : e.2 with
  | none =>
    simp only [renderEntry, he, entryNode]
    exact parseSpec_no_port e.1 h1 hch
  | some d =>
    have hp' : d ≠ [] ∧ ∀ c ∈ d, c.isDigit = true := by
      rw [he] at hp; exact hp
    simp only [renderEntry, he, entryNode]
    exact parseSpec_with_port e.1 d h1 hch hp'.1 hp'.2

/-- Parsing the rendered entries in sequence yields the expected nodes. -/
lemma parseSpecs_renderEntry (es : List (List Char × Option (List Char)))
    (hh : ∀ e ∈ es, hostOk e.1) (hp : ∀ e ∈ es, portOk e.2) :
    parseSpecs (es.map renderEntry) = .ok (es.map entryNode) := by
  induction es with
  | nil => rfl
  | cons e es ih =>
    have h1 := parseSpec_renderEntry e (hh e (List.mem_cons_self _ _))
      (hp e (List.mem_cons_self _ _))
    have h2 := ih (fun x hx => hh x (List.mem_cons_of_mem _ hx))
      (fun x hx => hp x (List.mem_cons_of_mem _ hx))
    simp [parseSpecs, h1, h2]

/-- Joining at least two rendered entries yields a nonempty string. -/
lemma joinComma_map_ne_nil (es : List (List Char × Option (List Char)))
    (hk : 2 ≤ es.length) : joinComma (es.map renderEntry) ≠ [] := by
  cases es with
  | nil => simp at hk
  | cons x xs =>
    cases xs with
    | nil => simp at hk
    | cons y ys => simp [joinComma]

/-- C7: for every override string of k ≥ 2 comma-separated `host[:port]`
entries (hosts nonempty and free of `,`/`:`, explicit ports nonempty digit
strings), `discover_nodes` returns exactly k nodes, in input order, where an
entry with an explicit port yields that port's value and an entry without a
port yields the default 9042. -/
theorem c7_override_parsing (es : List (List Char × Option (List Char)))
    (env : DiscoveryEnv) (hk : 2 ≤ es.length)
    (hh : ∀ e ∈ es, hostOk e.1) (hp : ∀ e ∈ es, portOk e.2)
    (ho : env.override = some (joinComma (es.map renderEntry))) :
    discover_nodes env = .ok (es.map entryNode) ∧
    (es.map entryNode).length = es.length := by
  have hne : joinComma (es.map renderEntry) ≠ [] := joinComma_map_ne_nil es hk
  have hnc : ∀ x ∈ es.map renderEntry, ',' ∉ x := by
    intro x hx
    obtain ⟨e, he, rfl⟩ := List.mem_map.mp hx
    exact renderEntry_no_comma e (hh e he) (hp e he)
  have hesne : es ≠ [] := by
    intro hnil
    rw [hnil] at hk
    simp at hk
  have hmapne : es.map renderEntry ≠ [] := by
    simpa using hesne
  have hparse : parseOverride (joinComma (es.map renderEntry)) =
      .ok (es.map entryNode) := by
    rw [parseOverride, pySplit_joinComma (es.map renderEntry) hnc hmapne]
    exact parseSpecs_renderEntry es hh hp
  refine ⟨?_, by simp⟩
  simp [discover_nodes, ho, hne, hparse]

/-- C7 (witness): the claim at a concrete two-entry override — hosts `n1`
(no port, defaulted to 9042) and `n2` with explicit port 7001. -/
theorem c7_witness :
    discover_nodes ⟨some (joinComma
      ([(['n', '1'], (none : Option (List Char))),
        (['n', '2'], some ['7', '0', '0', '1'])].map renderEntry)), true, []⟩
      = .ok ([(['n', '1'], (none : Option (List Char))),
        (['n', '2'], some ['7', '0', '0', '1'])].map entryNode) ∧
    ([(['n', '1'], (none : Option (List Char))),
      (['n', '2'], some ['7', '0', '0', '1'])].map entryNode).length
      = [(['n', '1'], (none : Option (List Char))),
        (['n', '2'], some ['7', '0', '0', '1'])].length :=
  c7_override_parsing
    [(['n', '1'], (none : Option (List Char))),
      (['n', '2'], some ['7', '0', '0', '1'])]
    ⟨some (joinComma ([(['n', '1'], (none : Option (List Char))),
      (['n', '2'], some ['7', '0', '0', '1'])].map renderEntry)), true, []⟩
    (by decide) (by decide) (by decide) rfl
